import Mathlib

/-!
# SRAM persistent-storage layer: shallow embedding and verification

Embedding of the SRAM (battery-backed cartridge storage) access layer of the
butano-pong repository:

* `src/butano/hw/src/bn_hw_sram.cpp` — bus configurator: `bn::hw::sram::init`
  programs the storage-bus wait state with tonc's `BIT_SET` and returns the
  `save_type` identification string `"SRAM_V113"`.
* `src/butano/include/bn_sram.h` — typed storage accessor: `bn::sram::size`,
  `read`, `read_offset`, `write`, `write_offset`, each validating its access
  window with `BN_ASSERT` before delegating to the raw byte-copy primitives
  `_bn::sram::unsafe_read` / `_bn::sram::unsafe_write`.

The raw copy primitives, the device-size constant, the wait-state encodings
and the build configuration live in repository files that are not among the
provided sources; they are modelled from the spec, and each such definition
says so in its doc comment.

Machine integers: C++ `int` offsets and sizes become `Int` / `Nat`; the
16-bit wait-control register becomes a `Nat` (the only write is a bitwise
`or` with a value below `2 ^ 16`, which cannot overflow 16 bits, so no
explicit reduction is needed). A value of a trivially-copyable C++ type `T`
is modelled by its byte image: its size `sizeof(T)` as a `Nat` together with
a byte buffer `Nat → Nat`.
-/

/-- The SRAM device state: one byte per device offset.
(Bytes are modelled as `Nat`; only positions below the device size are ever
read or written by the checked layer.) -/
structure Sram where
  data : Nat → Nat

namespace bn.hw.sram

/-- Modelled from the spec: `bn::hw::sram::size()` from
`bn_hw_sram_constants.h`, a file not among the provided sources.  The spec
fixes the statically configured device size at 32768 bytes. -/
def size : Int := 32768

/-- Modelled from the spec: the wait-state timing encodings from
`bn_hw_sram_constants.h` (not among the provided sources) — the "closed
enumerated set of four legal values" for the storage-bus wait-state field,
which occupies the low two bits of the wait-control register. -/
def BN_SRAM_WAIT_STATE_4 : Nat := 0

/-- Modelled from the spec: 3-cycle wait-state encoding (see
`BN_SRAM_WAIT_STATE_4`). -/
def BN_SRAM_WAIT_STATE_3 : Nat := 1

/-- Modelled from the spec: 2-cycle wait-state encoding (see
`BN_SRAM_WAIT_STATE_4`). -/
def BN_SRAM_WAIT_STATE_2 : Nat := 2

/-- Modelled from the spec: 8-cycle wait-state encoding (see
`BN_SRAM_WAIT_STATE_4`). -/
def BN_SRAM_WAIT_STATE_8 : Nat := 3

/-- Modelled from the spec: the build-time configuration macro
`BN_CFG_SRAM_WAIT_STATE` from `bn_config_sram.h` (not among the provided
sources).  The library default selects the 8-cycle timing code, and the
`static_assert` in `bn_hw_sram.cpp` requires the value to be one of the four
legal encodings. -/
def BN_CFG_SRAM_WAIT_STATE : Nat := BN_SRAM_WAIT_STATE_8

/-- Modelled from the spec: tonc's `BIT_SET(y, flag)` macro
(`bn_hw_tonc.h` is not among the provided sources), which expands to
`y |= flag`: a single read-modify-write that ors `flag` into `y`. -/
def BIT_SET (y flag : Nat) : Nat := y ||| flag

/-- From `bn_hw_sram.cpp`: the identification byte string
`const char save_type[] = "SRAM_V113"`, including the implicit terminating
null byte of the C string literal.  Declared `alignas(int)` and
`__attribute__((used))` in the source. -/
def save_type : List Nat := ("SRAM_V113".toList.map Char.toNat) ++ [0]

/-- From `bn_hw_sram.cpp`: the declared alignment of `save_type`
(`alignas(int)`; `int` is 4 bytes on the target), in bytes. -/
def save_type_alignment : Nat := 4

/-- The machine word size of the target, in bytes. -/
def word_size : Nat := 4

/-- Result of `bn::hw::sram::init`: the wait-control register after the
single `BIT_SET` write, paired with the returned identification token. -/
structure InitResult where
  reg : Nat
  token : List Nat
deriving DecidableEq

/-- From `bn_hw_sram.cpp`: `init()` performs the single register write
`BIT_SET(REG_WAITCNT_NV, BN_CFG_SRAM_WAIT_STATE)` and returns `save_type`.
The register is passed and returned explicitly: `reg` is the value of the
wait-control register before the call. -/
def init (reg : Nat) : InitResult :=
  ⟨BIT_SET reg BN_CFG_SRAM_WAIT_STATE, save_type⟩

/-- The SRAM wait-state field of the wait-control register: the low two
bits, which hold the four legal timing codes. -/
def waitStateField (reg : Nat) : Nat := reg &&& 3

end bn.hw.sram

namespace lowlevel.sram

/-- Modelled from the spec: `_bn::sram::unsafe_read(destination, size,
offset)` (implemented in a repository file not among the provided sources) —
the `copy_from_storage` capability, which copies `size` bytes from the
device starting at `offset` into the destination buffer, unconditionally and
correctly; bounds are pre-validated by the caller.  Returns the updated
destination buffer. -/
def copy_from_storage (s : Sram) (destination : Nat → Nat) (size : Nat)
    (offset : Nat) : Nat → Nat :=
  fun i => if i < size then s.data (offset + i) else destination i

/-- Modelled from the spec: `_bn::sram::unsafe_write(source, size, offset)`
(implemented in a repository file not among the provided sources) — the
`copy_to_storage` capability, which copies `size` bytes from the source
buffer into the device starting at `offset`, unconditionally and correctly;
bounds are pre-validated by the caller. -/
def copy_to_storage (s : Sram) (source : Nat → Nat) (size : Nat)
    (offset : Nat) : Sram :=
  ⟨fun i => if offset ≤ i ∧ i < offset + size then source (i - offset)
            else s.data i⟩

end lowlevel.sram

/-- A failing `BN_ASSERT` in `bn_sram.h`, carrying the operands it reports.
`invalidOffset` is `BN_ASSERT(offset >= 0, "Invalid offset: ", offset)`;
`sizeAndOffsetTooHigh` is `BN_ASSERT(int(sizeof(Type)) + offset <= size(),
"Source size and offset are too high: ", sizeof(Type), " - ", offset)`.
`BN_ASSERT` itself (from `bn_assert.h`, not among the provided sources) is
modelled from the spec: a failed assertion is fatal, halts execution at the
call site before any transfer, and reports its operands. -/
inductive AssertError where
  | invalidOffset (offset : Int)
  | sizeAndOffsetTooHigh (tsize : Nat) (offset : Int)
deriving DecidableEq

namespace bn.sram

/-- From `bn_sram.h`: `constexpr int size()` returns `hw::sram::size()`. -/
def size : Int := bn.hw.sram.size

/-- From `bn_sram.h`: `read<Type>(destination)` — after the two
`static_assert`s (trivially copyable; `sizeof(Type) <= size()`), it calls
`unsafe_read(&destination, sizeof(Type), 0)` unconditionally.  `tsize` is
`sizeof(Type)`; the value of type `Type` is its byte image. -/
def read (s : Sram) (destination : Nat → Nat) (tsize : Nat) : Nat → Nat :=
  lowlevel.sram.copy_from_storage s destination tsize 0

/-- From `bn_sram.h`: `read_offset<Type>(destination, offset)` — after the
`static_assert`s, it checks `BN_ASSERT(offset >= 0, ...)` then
`BN_ASSERT(int(sizeof(Type)) + offset <= size(), ...)`, and only then calls
`unsafe_read(&destination, sizeof(Type), offset)`.  The result pairs the
destination buffer with `none`, or the untouched buffer with the fatal
assertion (execution halts before any transfer). -/
def read_offset (s : Sram) (destination : Nat → Nat) (tsize : Nat)
    (offset : Int) : (Nat → Nat) × Option AssertError :=
  if offset ≥ 0 then
    if (tsize : Int) + offset ≤ size then
      (lowlevel.sram.copy_from_storage s destination tsize offset.toNat, none)
    else
      (destination, some (AssertError.sizeAndOffsetTooHigh tsize offset))
  else
    (destination, some (AssertError.invalidOffset offset))

/-- From `bn_sram.h`: `write<Type>(source)` — after the two
`static_assert`s, it calls `unsafe_write(&source, sizeof(Type), 0)`
unconditionally. -/
def write (s : Sram) (source : Nat → Nat) (tsize : Nat) : Sram :=
  lowlevel.sram.copy_to_storage s source tsize 0

/-- From `bn_sram.h`: `write_offset<Type>(source, offset)` — after the
`static_assert`s, it checks `BN_ASSERT(offset >= 0, ...)` then
`BN_ASSERT(int(sizeof(Type)) + offset <= size(), ...)`, and only then calls
`unsafe_write(&source, sizeof(Type), offset)`.  On a failed assertion the
device state is returned unchanged (execution halts before any transfer). -/
def write_offset (s : Sram) (source : Nat → Nat) (tsize : Nat)
    (offset : Int) : Sram × Option AssertError :=
  if offset ≥ 0 then
    if (tsize : Int) + offset ≤ size then
      (lowlevel.sram.copy_to_storage s source tsize offset.toNat, none)
    else
      (s, some (AssertError.sizeAndOffsetTooHigh tsize offset))
  else
    (s, some (AssertError.invalidOffset offset))

/-- The bound invariant of the spec for an access window: `0 <= offset` and
`offset + length <= total_size`. -/
def inBounds (offset : Int) (bytes : Nat) : Prop :=
  0 ≤ offset ∧ offset + (bytes : Int) ≤ size

instance (offset : Int) (bytes : Nat) : Decidable (inBounds offset bytes) :=
  inferInstanceAs (Decidable (_ ∧ _))

end bn.sram

/-! ## Verification of the claims: bus configurator -/

/-- The `static_assert` of `bn_hw_sram.cpp` holds of the modelled
configuration: the configured wait state is one of the four legal
encodings. -/
theorem cfg_wait_state_valid :
    bn.hw.sram.BN_CFG_SRAM_WAIT_STATE = bn.hw.sram.BN_SRAM_WAIT_STATE_4 ∨
    bn.hw.sram.BN_CFG_SRAM_WAIT_STATE = bn.hw.sram.BN_SRAM_WAIT_STATE_3 ∨
    bn.hw.sram.BN_CFG_SRAM_WAIT_STATE = bn.hw.sram.BN_SRAM_WAIT_STATE_2 ∨
    bn.hw.sram.BN_CFG_SRAM_WAIT_STATE = bn.hw.sram.BN_SRAM_WAIT_STATE_8 := by
  right; right; right; rfl

/-- C4: `init()` performs exactly one register-level write (the single
`BIT_SET` modelled by the `reg` field of its result), and for every prior
register state the wait-state field of the wait-control register afterwards
equals the statically-configured timing code; `init()` returns the
Identification Token. -/
theorem init_sets_wait_state_and_returns_token (reg : Nat) :
    bn.hw.sram.waitStateField (bn.hw.sram.init reg).reg
        = bn.hw.sram.BN_CFG_SRAM_WAIT_STATE ∧
    (bn.hw.sram.init reg).token = bn.hw.sram.save_type := by
  refine ⟨?_, rfl⟩
  show (reg ||| 3) &&& 3 = 3
  apply Nat.eq_of_testBit_eq
  intro i
  simp only [Nat.testBit_and, Nat.testBit_or]
  cases h : reg.testBit i <;> cases h2 : Nat.testBit 3 i <;> simp

/-- C5: `init()` is idempotent — for every starting register state, a second
call leaves the wait-control register and the returned token exactly as the
first call left them. -/
theorem init_idempotent (reg : Nat) :
    bn.hw.sram.init (bn.hw.sram.init reg).reg = bn.hw.sram.init reg := by
  simp only [bn.hw.sram.init, bn.hw.sram.BIT_SET, bn.hw.sram.BN_CFG_SRAM_WAIT_STATE,
    bn.hw.sram.BN_SRAM_WAIT_STATE_8, Nat.or_assoc, Nat.or_self]

/-- C10: `init()`'s register write is a bitwise or of the configured
wait-state code into the wait-control register: the register afterwards
equals `reg ||| BN_CFG_SRAM_WAIT_STATE`, so every bit set before the call
remains set afterwards and no bit of any field is cleared. -/
theorem init_reg_write_is_or (reg : Nat) :
    (bn.hw.sram.init reg).reg = (reg ||| bn.hw.sram.BN_CFG_SRAM_WAIT_STATE) ∧
    ∀ i, reg.testBit i = true → ((bn.hw.sram.init reg).reg).testBit i = true := by
  refine ⟨rfl, fun i h => ?_⟩
  show (reg ||| 3).testBit i = true
  simp [Nat.testBit_or, h]

/-- Witness for C10 at `reg = 5`, bit 0: the bit set beforehand is still set
after `init`. -/
theorem init_reg_write_is_or_witness :
    ((bn.hw.sram.init 5).reg).testBit 0 = true :=
  (init_reg_write_is_or 5).2 0 (by decide)

/-- C8: the Identification Token is the fixed null-terminated C string
`"SRAM_V113"`; every call to `init()` returns that same token whatever the
prior register state, and its declared alignment (`alignas(int)`) is a
multiple of the machine word.  (Immutability holds by construction: the
token is a constant, and no operation of the layer takes it as input.) -/
theorem save_type_fixed_token (reg : Nat) :
    (bn.hw.sram.init reg).token = bn.hw.sram.save_type ∧
    bn.hw.sram.save_type = [83, 82, 65, 77, 95, 86, 49, 49, 51, 0] ∧
    bn.hw.sram.save_type.getLast? = some 0 ∧
    bn.hw.sram.save_type_alignment % bn.hw.sram.word_size = 0 := by
  exact ⟨rfl, by decide, by decide, by decide⟩

/-- C7: `size()` returns the statically configured total device size, the
same constant at every call point; in the embedding it is a pure constant
(the `constexpr` function reads no state and has no side effect). -/
theorem size_constant :
    bn.sram.size = bn.hw.sram.size ∧ bn.sram.size = 32768 :=
  ⟨rfl, rfl⟩

/-! ## Verification of the claims: typed storage accessor -/

/-- C1: for every flat-copyable value (byte image `source` of size `tsize`)
and every offset with `0 ≤ offset` and `offset + tsize ≤ total_size`,
`write_offset` followed by `read_offset` over the same range succeeds and
makes the destination byte-identical to the value. -/
theorem write_then_read_roundtrip (s : Sram) (source destination : Nat → Nat)
    (tsize : Nat) (offset : Int) (h0 : 0 ≤ offset)
    (h1 : (tsize : Int) + offset ≤ bn.sram.size) :
    (bn.sram.write_offset s source tsize offset).2 = none ∧
    (bn.sram.read_offset (bn.sram.write_offset s source tsize offset).1
        destination tsize offset).2 = none ∧
    ∀ i < tsize,
      (bn.sram.read_offset (bn.sram.write_offset s source tsize offset).1
          destination tsize offset).1 i = source i := by
  simp only [bn.sram.write_offset, bn.sram.read_offset, ge_iff_le, if_pos h0,
    if_pos h1]
  refine ⟨trivial, trivial, fun i hi => ?_⟩
  simp only [lowlevel.sram.copy_from_storage, lowlevel.sram.copy_to_storage,
    if_pos hi]
  rw [if_pos ⟨Nat.le_add_right _ _, by omega⟩, Nat.add_sub_cancel_left]

/-- Witness for C1 at device `0`, a 4-byte value of constant bytes `42`,
offset `100`: reading back byte 2 returns `42`. -/
theorem write_then_read_roundtrip_witness :
    (bn.sram.read_offset
        (bn.sram.write_offset ⟨fun _ => 0⟩ (fun _ => 42) 4 100).1
        (fun _ => 0) 4 100).1 2 = 42 :=
  (write_then_read_roundtrip ⟨fun _ => 0⟩ (fun _ => 42) (fun _ => 0) 4 100
    (by decide) (by decide)).2.2 2 (by decide)

/-- C2: for every call to `read_offset` or `write_offset` with a negative
offset, or with `tsize + offset` exceeding `total_size`, the operation halts
with the fatal assertion reporting the offending operands, and the storage
state (resp. the destination buffer) is unchanged: no partial transfer. -/
theorem out_of_bounds_fatal (s : Sram) (source destination : Nat → Nat)
    (tsize : Nat) (offset : Int)
    (h : offset < 0 ∨ bn.sram.size < (tsize : Int) + offset) :
    ((bn.sram.write_offset s source tsize offset).1 = s ∧
     (bn.sram.read_offset s destination tsize offset).1 = destination) ∧
    ((bn.sram.write_offset s source tsize offset).2 =
        some (AssertError.invalidOffset offset) ∨
     (bn.sram.write_offset s source tsize offset).2 =
        some (AssertError.sizeAndOffsetTooHigh tsize offset)) ∧
    ((bn.sram.read_offset s destination tsize offset).2 =
        some (AssertError.invalidOffset offset) ∨
     (bn.sram.read_offset s destination tsize offset).2 =
        some (AssertError.sizeAndOffsetTooHigh tsize offset)) := by
  rcases h with h | h
  · have h0 : ¬ (offset ≥ 0) := by omega
    simp [bn.sram.write_offset, bn.sram.read_offset, h0]
  · by_cases h0 : offset ≥ 0
    · have h1 : ¬ ((tsize : Int) + offset ≤ bn.sram.size) := by omega
      simp [bn.sram.write_offset, bn.sram.read_offset, h0, h1]
    · simp [bn.sram.write_offset, bn.sram.read_offset, h0]

/-- Witness for C2 at the spec's concrete scenario: a 4-byte write at
offset 32765 (32765 + 4 > 32768) fails the bounds check and reports its
operands. -/
theorem out_of_bounds_fatal_witness :
    (bn.sram.write_offset ⟨fun _ => 0⟩ (fun _ => 1) 4 32765).2 =
        some (AssertError.invalidOffset 32765) ∨
    (bn.sram.write_offset ⟨fun _ => 0⟩ (fun _ => 1) 4 32765).2 =
        some (AssertError.sizeAndOffsetTooHigh 4 32765) :=
  (out_of_bounds_fatal ⟨fun _ => 0⟩ (fun _ => 1) (fun _ => 0) 4 32765
    (Or.inr (by decide))).2.1

/-- C3: every call the accessor layer makes to the raw copy primitives is
in bounds.  The no-offset variants `read` / `write` call the primitive with
the window `(0, tsize)`, in bounds whenever the compile-time size constraint
`sizeof(Type) ≤ size()` holds; the offset variants reach the primitive (a
`none` error component) only when the access window `(offset, tsize)`
satisfies the bound invariant. -/
theorem accessor_calls_in_bounds (s : Sram) (source destination : Nat → Nat)
    (tsize : Nat) (offset : Int) :
    ((tsize : Int) ≤ bn.sram.size → bn.sram.inBounds 0 tsize) ∧
    ((bn.sram.read_offset s destination tsize offset).2 = none →
      bn.sram.inBounds offset tsize) ∧
    ((bn.sram.write_offset s source tsize offset).2 = none →
      bn.sram.inBounds offset tsize) := by
  refine ⟨fun h => ⟨le_refl 0, by simpa using h⟩, fun h => ?_, fun h => ?_⟩
  · by_cases h0 : offset ≥ 0
    · by_cases h1 : (tsize : Int) + offset ≤ bn.sram.size
      · exact ⟨h0, by linarith⟩
      · exact absurd h (by simp [bn.sram.read_offset, h0, h1])
    · exact absurd h (by simp [bn.sram.read_offset, h0])
  · by_cases h0 : offset ≥ 0
    · by_cases h1 : (tsize : Int) + offset ≤ bn.sram.size
      · exact ⟨h0, by linarith⟩
      · exact absurd h (by simp [bn.sram.write_offset, h0, h1])
    · exact absurd h (by simp [bn.sram.write_offset, h0])

/-- Witness for C3: the successful 4-byte `write_offset` at offset 100
implies the bound invariant for the window `(100, 4)`. -/
theorem accessor_calls_in_bounds_witness : bn.sram.inBounds 100 4 :=
  (accessor_calls_in_bounds ⟨fun _ => 0⟩ (fun _ => 0) (fun _ => 0)
    4 100).2.2 (by decide)

/-- C6: under the compile-time size constraint, `read` is observationally
equivalent to `read_offset` at offset 0 and `write` to `write_offset` at
offset 0: same resulting buffer / storage state, and the offset variant
succeeds (same success outcome as the never-failing no-offset variant). -/
theorem no_offset_equiv_offset_zero (s : Sram) (source destination : Nat → Nat)
    (tsize : Nat) (h : (tsize : Int) ≤ bn.sram.size) :
    (bn.sram.read s destination tsize
        = (bn.sram.read_offset s destination tsize 0).1 ∧
      (bn.sram.read_offset s destination tsize 0).2 = none) ∧
    (bn.sram.write s source tsize
        = (bn.sram.write_offset s source tsize 0).1 ∧
      (bn.sram.write_offset s source tsize 0).2 = none) := by
  simp [bn.sram.read, bn.sram.write, bn.sram.read_offset, bn.sram.write_offset,
    h]

/-- Witness for C6 with a 4-byte value: `write_offset` at offset 0 succeeds,
as `write` does. -/
theorem no_offset_equiv_offset_zero_witness :
    (bn.sram.write_offset ⟨fun _ => 0⟩ (fun _ => 5) 4 0).2 = none :=
  (no_offset_equiv_offset_zero ⟨fun _ => 0⟩ (fun _ => 5) (fun _ => 0) 4
    (by decide)).2.2

/-- C9: the no-offset variants `read` and `write` have no runtime
precondition check and cannot fail (in the embedding they return no error
component at all): for every value whose size satisfies the compile-time
constraint they unconditionally perform the full `tsize`-byte transfer at
offset 0, and touch nothing outside it. -/
theorem no_offset_total_transfer (s : Sram) (source destination : Nat → Nat)
    (tsize : Nat) (_h : (tsize : Int) ≤ bn.sram.size) :
    (∀ i < tsize, bn.sram.read s destination tsize i = s.data i) ∧
    (∀ i, tsize ≤ i → bn.sram.read s destination tsize i = destination i) ∧
    (∀ i < tsize, (bn.sram.write s source tsize).data i = source i) ∧
    (∀ i, tsize ≤ i → (bn.sram.write s source tsize).data i = s.data i) := by
  refine ⟨fun i hi => ?_, fun i hi => ?_, fun i hi => ?_, fun i hi => ?_⟩ <;>
    simp only [bn.sram.read, bn.sram.write, lowlevel.sram.copy_from_storage,
      lowlevel.sram.copy_to_storage]
  · rw [if_pos hi, Nat.zero_add]
  · rw [if_neg (by omega)]
  · rw [if_pos ⟨Nat.zero_le i, by omega⟩, Nat.sub_zero]
  · rw [if_neg (by omega)]

/-- Witness for C9: a 4-byte `write` at offset 0 stores byte 2 of the
value. -/
theorem no_offset_total_transfer_witness :
    (bn.sram.write ⟨fun _ => 0⟩ (fun _ => 5) 4).data 2 = 5 :=
  (no_offset_total_transfer ⟨fun _ => 0⟩ (fun _ => 5) (fun _ => 0) 4
    (by decide)).2.2.1 2 (by decide)
